import Mathlib

/-!
Verification of the real-time frame relay core of the `edge` repository
(`app/src/main/cpp/native-lib.cpp`, `image_processor.cpp`,
`opengl_renderer.cpp`) against its natural-language specification.

The C++ `cv::Mat` is embedded as a rectangular row-major pixel buffer with
explicit rows, cols, channel count and a flat data list of byte values.
OpenCV library routines called by the repository (`cvtColor`, `Canny`,
`rotate`) are modelled at their documented interfaces: success conditions,
output dimensions and channel counts follow the OpenCV contract used by the
call sites; per-pixel formulas are concrete executable arithmetic.
-/

/-- Embedding of `cv::Mat`: a row-major image with explicit dimensions,
channel count and flat pixel data (`data.length = rows * cols * channels`
for every matrix the code builds). -/
structure Mat where
  rows : Nat
  cols : Nat
  channels : Nat
  data : List Nat
deriving DecidableEq

/-- `cv::Mat::empty()`: true when the matrix has no pixels. -/
def Mat.isEmpty (m : Mat) : Bool := m.rows == 0 || m.cols == 0

/-- A default-constructed `cv::Mat` (the initial value of the global
`rawFrame`, `processedFrame`, `grayscaleFrame` variables, and the result of
`cv::Mat::release`). -/
def Mat.emptyMat : Mat := ⟨0, 0, 1, []⟩

/-- Pixel accessor: channel `k` of the pixel at row `r`, column `c`
(row-major, interleaved channels, out-of-range reads give 0). -/
def Mat.px (m : Mat) (r c k : Nat) : Nat :=
  (m.data[(r * m.cols + c) * m.channels + k]?).getD 0

/-- Build a matrix from a per-pixel function (row-major, interleaved). -/
def mkMat (rows cols channels : Nat) (f : Nat → Nat → Nat → Nat) : Mat :=
  ⟨rows, cols, channels,
    (List.range (rows * cols * channels)).map
      (fun i => f (i / (cols * channels)) ((i / channels) % cols) (i % channels))⟩

/-- Clamp an integer into the byte range, as OpenCV saturate_cast does. -/
def clamp255 (x : Int) : Nat := (max 0 (min 255 x)).toNat

/-- Per-pixel NV21 to BGR formula (BT.601 with saturation), reading the
luma plane and the interleaved VU chroma plane of the packed source. -/
def yuv2bgrPx (yuv : Mat) (r c k : Nat) : Nat :=
  let H := yuv.rows * 2 / 3
  let W := yuv.cols
  let y : Int := (yuv.data[r * W + c]?).getD 0
  let v : Int := (yuv.data[H * W + (r / 2) * W + 2 * (c / 2)]?).getD 0
  let u : Int := (yuv.data[H * W + (r / 2) * W + 2 * (c / 2) + 1]?).getD 0
  let yy := 298 * (y - 16)
  if k = 0 then clamp255 ((yy + 516 * (u - 128) + 128) / 256)
  else if k = 1 then clamp255 ((yy - 100 * (u - 128) - 208 * (v - 128) + 128) / 256)
  else clamp255 ((yy + 409 * (v - 128) + 128) / 256)

/-- Model of the external OpenCV `cvtColor(..., COLOR_YUV2BGR_NV21)` at its
interface: requires a non-empty single-channel source whose height is a
multiple of 3 and whose width is even (the NV21 layout checks OpenCV
asserts); produces a 3-channel matrix of height `rows * 2 / 3` and the same
width. Failure (`none`) models the thrown `cv::Exception`. -/
def cvtColorYUV2BGR_NV21 (yuv : Mat) : Option Mat :=
  if yuv.channels = 1 ∧ 0 < yuv.rows ∧ 0 < yuv.cols ∧
      yuv.rows % 3 = 0 ∧ yuv.cols % 2 = 0 ∧
      yuv.data.length = yuv.rows * yuv.cols then
    some (mkMat (yuv.rows * 2 / 3) yuv.cols 3 (yuv2bgrPx yuv))
  else
    none

/-- Model of the external OpenCV `cvtColor(..., COLOR_BGR2GRAY)` at its
interface: requires a non-empty 3-channel source; produces a single-channel
matrix of the same size using the fixed-point BT.601 luma weights
(B*1868 + G*9617 + R*4899 + 8192) >> 14. `none` models the thrown
`cv::Exception` on malformed input. -/
def cvtColorBGR2GRAY (m : Mat) : Option Mat :=
  if m.channels = 3 ∧ m.isEmpty = false then
    some (mkMat m.rows m.cols 1 (fun r c _ =>
      (m.px r c 0 * 1868 + m.px r c 1 * 9617 + m.px r c 2 * 4899 + 8192) / 16384))
  else
    none

/-- Model of the external OpenCV `cvtColor(..., COLOR_GRAY2BGR)` at its
interface: requires a non-empty single-channel source; replicates the luma
into three channels, same size. -/
def cvtColorGRAY2BGR (m : Mat) : Option Mat :=
  if m.channels = 1 ∧ m.isEmpty = false then
    some (mkMat m.rows m.cols 3 (fun r c _ => m.px r c 0))
  else
    none

/-- Border-clamped single-channel pixel read used by the edge detector. -/
def Mat.pxClamped (m : Mat) (r c : Nat) : Int :=
  m.px (min r (m.rows - 1)) (min c (m.cols - 1)) 0

/-- Model of the external OpenCV `cv::Canny` at its interface: requires a
non-empty single-channel source and produces a single-channel edge map of
the same size, each pixel 255 where the gradient magnitude reaches the high
threshold and 0 elsewhere (the two fixed thresholds 100 and 200 are passed
by `processFrame`). -/
def canny (m : Mat) (loThresh hiThresh : Nat) : Option Mat :=
  if m.channels = 1 ∧ m.isEmpty = false then
    some (mkMat m.rows m.cols 1 (fun r c _ =>
      let gx := m.pxClamped r (c + 1) - m.pxClamped r (c - 1)
      let gy := m.pxClamped (r + 1) c - m.pxClamped (r - 1) c
      if hiThresh ≤ gx.natAbs + gy.natAbs then 255 else 0))
  else
    none

/-- The fallible pipeline inside the `try` block of
`image_processor.cpp::processFrame`: BGR2GRAY, then Canny with thresholds
100 and 200, then GRAY2BGR; `none` is the `cv::Exception` path. -/
def edgeSteps (m : Mat) : Option Mat :=
  (cvtColorBGR2GRAY m).bind (fun gray =>
    (canny gray 100 200).bind (fun edges => cvtColorGRAY2BGR edges))

/-- `image_processor.cpp::processFrame(input, output)`: returns the new
value of the `output` reference. Empty input returns early, leaving
`output` unchanged; a failing pipeline is caught and falls back to
`output = input.clone()`. -/
def processFrame (input output : Mat) : Mat :=
  if input.isEmpty then output
  else
    match edgeSteps input with
    | some result => result
    | none => input

/-- The fallible grayscale pipeline inlined in `processFrameInternal`
(native-lib.cpp lines 219-220): BGR2GRAY then GRAY2BGR back to 3 channels. -/
def grayscaleSteps (m : Mat) : Option Mat :=
  (cvtColorBGR2GRAY m).bind cvtColorGRAY2BGR

/-- The grayscale variant computation of `processFrameInternal` including
its `catch`: on failure the stored grayscale frame is `rotatedBgr.clone()`. -/
def grayscaleFilter (input : Mat) : Mat :=
  match grayscaleSteps input with
  | some g => g
  | none => input

/-- `native-lib.cpp::rotateFrame`: 0 clones, 90/180/270 rotate via
`cv::rotate`, any other angle logs a diagnostic and clones the original. -/
def rotateFrame (frame : Mat) (rotation : Int) : Mat :=
  if rotation = 0 then frame
  else if rotation = 90 then
    mkMat frame.cols frame.rows frame.channels
      (fun r c k => frame.px (frame.rows - 1 - c) r k)
  else if rotation = 180 then
    mkMat frame.rows frame.cols frame.channels
      (fun r c k => frame.px (frame.rows - 1 - r) (frame.cols - 1 - c) k)
  else if rotation = 270 then
    mkMat frame.cols frame.rows frame.channels
      (fun r c k => frame.px c (frame.cols - 1 - r) k)
  else frame

/-- The rotation step of `processFrameInternal` (lines 204-208): rotate
only when a non-zero rotation was requested. -/
def appliedRotation (bgr : Mat) (rotation : Int) : Mat :=
  if rotation ≠ 0 then rotateFrame bgr rotation else bgr

/-- The Shared Frame Store: the three global `cv::Mat` variants guarded by
`frameMutex` in native-lib.cpp. -/
structure FrameStore where
  rawFrame : Mat
  grayscaleFrame : Mat
  processedFrame : Mat
deriving DecidableEq

/-- Process-start state: all three globals default-constructed (empty). -/
def initialStore : FrameStore :=
  { rawFrame := Mat.emptyMat, grayscaleFrame := Mat.emptyMat, processedFrame := Mat.emptyMat }

/-- The YUV wrapping and conversion step of `processFrameInternal`
(lines 191-201): wrap the delivered bytes as a `(height + height/2) x width`
single-channel matrix and convert NV21 to BGR. -/
def convertFrame (frameData : List Nat) (width height : Nat) : Option Mat :=
  cvtColorYUV2BGR_NV21 ⟨height + height / 2, width, 1, frameData⟩

/-- `native-lib.cpp::processFrameInternal`: null data or a failed
conversion skips the frame (store unchanged); otherwise the rotated BGR
frame and its grayscale and edge variants replace the three stored
buffers under the lock. -/
def processFrameInternal (s : FrameStore) (frameData : Option (List Nat))
    (width height : Nat) (rotation : Int) : FrameStore :=
  match frameData with
  | none => s
  | some data =>
    match convertFrame data width height with
    | none => s
    | some bgr =>
      let rotatedBgr := appliedRotation bgr rotation
      { rawFrame := rotatedBgr
        grayscaleFrame := grayscaleFilter rotatedBgr
        processedFrame := processFrame rotatedBgr s.processedFrame }

/-- `Java_..._nativeProcessFrame`: the legacy JNI entry point delegates to
`processFrameInternal` with rotation 0. -/
def nativeProcessFrame (s : FrameStore) (frameData : Option (List Nat))
    (width height : Nat) : FrameStore :=
  processFrameInternal s frameData width height 0

/-- `Java_..._nativeProcessFrameWithRotation`: delegates to
`processFrameInternal` with the given rotation. -/
def nativeProcessFrameWithRotation (s : FrameStore) (frameData : Option (List Nat))
    (width height : Nat) (rotation : Int) : FrameStore :=
  processFrameInternal s frameData width height rotation

/-- `Java_..._nativeCleanup`: releases all three stored buffers under the
lock, leaving every variant empty. -/
def nativeCleanup (s : FrameStore) : FrameStore :=
  { rawFrame := Mat.emptyMat, grayscaleFrame := Mat.emptyMat, processedFrame := Mat.emptyMat }

/-- `Java_..._setRenderModeNative`: `currentRenderMode =
static_cast<RenderMode>(mode)` — the raw integer value is stored as is. -/
def setRenderModeNative (mode : Int) : Int := mode

/-- The lazily initialized fallback frame of `getLatestFrameForRender`
(lines 296-302): 480 rows by 640 columns, 3 channels, solid blue
`Scalar(255, 0, 0)` in BGR order. -/
def fallbackFrame : Mat :=
  mkMat 480 640 3 (fun _ _ k => if k = 0 then 255 else 0)

/-- `native-lib.cpp::getLatestFrameForRender` (lines 292-345): switch on
the current render mode — `RAW_CAMERA` (0) returns the raw frame,
`GRAYSCALE` (2) the grayscale frame, and `EDGE_DETECTION`, `DEFAULT`,
`INSET`, `BORDER_FIX` and every other value the processed frame, in each
case falling back to the blue fallback frame when the selected variant is
empty. Returned buffers are clones (value copies). -/
def getLatestFrameForRender (s : FrameStore) (currentRenderMode : Int) : Mat :=
  if currentRenderMode = 0 then
    if s.rawFrame.isEmpty then fallbackFrame else s.rawFrame
  else if currentRenderMode = 2 then
    if s.grayscaleFrame.isEmpty then fallbackFrame else s.grayscaleFrame
  else
    if s.processedFrame.isEmpty then fallbackFrame else s.processedFrame

/-- One vertex entry of the renderer tables in `opengl_renderer.cpp`: quad
position and texture coordinate. All table entries are the exact float
values -1.0, 0.0 or 1.0, so they embed exactly as integers. -/
structure Vtx where
  posX : Int
  posY : Int
  texU : Int
  texV : Int
deriving DecidableEq

/-- `verticesNormal` (opengl_renderer.cpp lines 542-548), array order
bottom-left, bottom-right, top-left, top-right. -/
def verticesNormal : List Vtx :=
  [⟨-1, -1, 0, 0⟩, ⟨1, -1, 1, 0⟩, ⟨-1, 1, 0, 1⟩, ⟨1, 1, 1, 1⟩]

/-- `verticesFlippedV` (lines 551-557). -/
def verticesFlippedV : List Vtx :=
  [⟨-1, -1, 0, 1⟩, ⟨1, -1, 1, 1⟩, ⟨-1, 1, 0, 0⟩, ⟨1, 1, 1, 0⟩]

/-- `verticesRotated90` (lines 560-566). -/
def verticesRotated90 : List Vtx :=
  [⟨-1, -1, 1, 0⟩, ⟨1, -1, 1, 1⟩, ⟨-1, 1, 0, 0⟩, ⟨1, 1, 0, 1⟩]

/-- `verticesRotated180` (lines 569-575). -/
def verticesRotated180 : List Vtx :=
  [⟨-1, -1, 1, 1⟩, ⟨1, -1, 0, 1⟩, ⟨-1, 1, 1, 0⟩, ⟨1, 1, 0, 0⟩]

/-- `verticesRotated270` (lines 578-584). -/
def verticesRotated270 : List Vtx :=
  [⟨-1, -1, 0, 1⟩, ⟨1, -1, 0, 0⟩, ⟨-1, 1, 1, 1⟩, ⟨1, 1, 1, 0⟩]

/-- `opengl_renderer.cpp::getCurrentVertices` (lines 640-649): selects the
table for the current orientation; the enum values are NORMAL=0,
FLIPPED_V=1, ROTATED_90=2, ROTATED_180=3, ROTATED_270=4, and the switch
default falls back to the flipped table. -/
def getCurrentVertices (currentOrientation : Int) : List Vtx :=
  if currentOrientation = 0 then verticesNormal
  else if currentOrientation = 1 then verticesFlippedV
  else if currentOrientation = 2 then verticesRotated90
  else if currentOrientation = 3 then verticesRotated180
  else if currentOrientation = 4 then verticesRotated270
  else verticesFlippedV

/-- Texture coordinates of a table read per corner clockwise from the
bottom-left: bottom-left, top-left, top-right, bottom-right (the array
itself is stored in triangle-strip order BL, BR, TL, TR). -/
def cwTexcoords (t : List Vtx) : List (Int × Int) :=
  match t with
  | [bl, br, tl, tr] => [(bl.texU, bl.texV), (tl.texU, tl.texV), (tr.texU, tr.texV), (br.texU, br.texV)]
  | _ => []

/-- Positions of a table in the same clockwise-from-bottom-left order. -/
def cwPositions (t : List Vtx) : List (Int × Int) :=
  match t with
  | [bl, br, tl, tr] => [(bl.posX, bl.posY), (tl.posX, tl.posY), (tr.posX, tr.posY), (br.posX, br.posY)]
  | _ => []

/-- Cycle a four-element corner list one step clockwise (each texcoord
moves to the next corner in clockwise order). -/
def cycleCW (l : List (Int × Int)) : List (Int × Int) :=
  match l with
  | [a, b, c, d] => [d, a, b, c]
  | other => other

/-- Cycle a four-element corner list one step counter-clockwise. -/
def cycleCCW (l : List (Int × Int)) : List (Int × Int) :=
  match l with
  | [a, b, c, d] => [b, c, d, a]
  | other => other

/-- Events of the concurrency core, for stating the locking discipline:
lock acquisition/release of `frameMutex`, a buffer deep copy, a filter or
conversion computation, and a GPU (OpenGL) call. -/
inductive CoreOp where
  | lockAcquire
  | lockRelease
  | bufferCopy
  | filterComputation
  | gpuCall
deriving DecidableEq

/-- The operations a successful `processFrameInternal` call performs, in
program order (native-lib.cpp lines 180-240): NV21 conversion (line 196)
and rotation (line 206) before the lock; then, inside the `lock_guard`
scope opened at line 211, the raw clone (line 214), the two grayscale
conversions (lines 219-220) and the edge filter call (line 229). -/
def publishOps : List CoreOp :=
  [ .filterComputation
  , .filterComputation
  , .lockAcquire
  , .bufferCopy
  , .filterComputation
  , .filterComputation
  , .filterComputation
  , .lockRelease ]

/-- The operations of one render pass (opengl_renderer.cpp renderGL, lines
723-799): `getLatestFrameForRender` clones one variant under the lock
(native-lib.cpp lines 304-344), then after the lock is released the pass
converts to RGBA, resizes, and issues the GL upload/draw calls. -/
def renderPassOps : List CoreOp :=
  [ .lockAcquire
  , .bufferCopy
  , .lockRelease
  , .filterComputation
  , .filterComputation
  , .gpuCall
  , .gpuCall
  , .gpuCall ]

/-- The operations performed while the lock is held: collects the events
strictly between each acquisition and the matching release. -/
def heldOps : List CoreOp → Bool → List CoreOp
  | [], _ => []
  | CoreOp.lockAcquire :: rest, _ => heldOps rest true
  | CoreOp.lockRelease :: rest, _ => heldOps rest false
  | op :: rest, held => (if held then [op] else []) ++ heldOps rest held

/-- Sample NV21 frame for concrete evaluation: a 2x2 image (luma plane of
four bytes, one interleaved VU pair). -/
def sampleNV21 : List Nat := [16, 16, 16, 16, 128, 128]

/-- The BGR conversion of `sampleNV21` (black frame). -/
def sampleBgr : Mat := ⟨2, 2, 3, [0, 0, 0, 0, 0, 0, 0, 0, 0, 0, 0, 0]⟩

/-- A store with three distinct non-empty variants, for concrete checks. -/
def sampleStore : FrameStore :=
  { rawFrame := ⟨1, 1, 3, [1, 2, 3]⟩
    grayscaleFrame := ⟨1, 1, 3, [4, 5, 6]⟩
    processedFrame := ⟨1, 1, 3, [7, 8, 9]⟩ }

/-- A non-empty two-channel buffer on which both filter pipelines throw
(cvtColor BGR2GRAY rejects a 2-channel source). -/
def sampleBadInput : Mat := ⟨1, 1, 2, [7, 7]⟩

/-- A raw capture buffer is a valid NV21 frame of declared size `W x H`
when both dimensions are positive and even (spec section 3: chroma plane
height `H/2`, packed layout) and the byte count matches the luma plane
plus the interleaved chroma plane. -/
def validNV21 (data : List Nat) (W H : Nat) : Prop :=
  0 < W ∧ 0 < H ∧ W % 2 = 0 ∧ H % 2 = 0 ∧ data.length = W * (H + H / 2)

instance (data : List Nat) (W H : Nat) : Decidable (validNV21 data W H) := by
  unfold validNV21; infer_instance

theorem Mat.isEmpty_false (m : Mat) : m.isEmpty = false ↔ 0 < m.rows ∧ 0 < m.cols := by
  simp [Mat.isEmpty, Nat.pos_iff_ne_zero]

theorem cvtColorYUV2BGR_NV21_some {m g : Mat} (h : cvtColorYUV2BGR_NV21 m = some g) :
    g.rows = m.rows * 2 / 3 ∧ g.cols = m.cols ∧ g.channels = 3 ∧
    0 < g.rows ∧ 0 < g.cols := by
  unfold cvtColorYUV2BGR_NV21 at h
  split at h
  case isTrue hc =>
    injection h with hg
    subst hg
    obtain ⟨h1, h2, h3, h4, h5, h6⟩ := hc
    exact ⟨rfl, rfl, rfl, by show 0 < m.rows * 2 / 3; omega, h3⟩
  case isFalse => exact absurd h (by simp)

theorem cvtColorBGR2GRAY_some {m g : Mat} (h : cvtColorBGR2GRAY m = some g) :
    g.rows = m.rows ∧ g.cols = m.cols ∧ g.channels = 1 := by
  unfold cvtColorBGR2GRAY at h
  split at h
  · injection h with hg; subst hg; exact ⟨rfl, rfl, rfl⟩
  · exact absurd h (by simp)

theorem cvtColorGRAY2BGR_some {m g : Mat} (h : cvtColorGRAY2BGR m = some g) :
    g.rows = m.rows ∧ g.cols = m.cols ∧ g.channels = 3 := by
  unfold cvtColorGRAY2BGR at h
  split at h
  · injection h with hg; subst hg; exact ⟨rfl, rfl, rfl⟩
  · exact absurd h (by simp)

theorem canny_some {m g : Mat} {lo hi : Nat} (h : canny m lo hi = some g) :
    g.rows = m.rows ∧ g.cols = m.cols ∧ g.channels = 1 := by
  unfold canny at h
  split at h
  · injection h with hg; subst hg; exact ⟨rfl, rfl, rfl⟩
  · exact absurd h (by simp)

theorem convertFrame_some {data : List Nat} {W H : Nat} {bgr : Mat}
    (h : convertFrame data W H = some bgr) :
    bgr.channels = 3 ∧ bgr.isEmpty = false := by
  unfold convertFrame at h
  obtain ⟨h1, h2, h3, h4, h5⟩ := cvtColorYUV2BGR_NV21_some h
  exact ⟨h3, (Mat.isEmpty_false _).mpr ⟨h4, h5⟩⟩

theorem convertFrame_valid (data : List Nat) (W H : Nat) (hv : validNV21 data W H) :
    ∃ bgr : Mat, convertFrame data W H = some bgr ∧
      bgr.rows = H ∧ bgr.cols = W ∧ bgr.channels = 3 := by
  obtain ⟨hW, hH, hW2, hH2, hlen⟩ := hv
  refine ⟨mkMat ((H + H / 2) * 2 / 3) W 3
      (yuv2bgrPx ⟨H + H / 2, W, 1, data⟩), ?_, ?_, rfl, rfl⟩
  · unfold convertFrame cvtColorYUV2BGR_NV21
    rw [if_pos]
    exact ⟨rfl, by show 0 < H + H / 2; omega, hW, by show (H + H / 2) % 3 = 0; omega, hW2,
      by show data.length = (H + H / 2) * W; rw [hlen]; exact Nat.mul_comm W (H + H / 2)⟩
  · show (H + H / 2) * 2 / 3 = H
    omega

theorem appliedRotation_channels (m : Mat) (rot : Int) :
    (appliedRotation m rot).channels = m.channels := by
  unfold appliedRotation rotateFrame
  split_ifs <;> rfl

theorem appliedRotation_dims (m : Mat) (rot : Int) :
    (appliedRotation m rot).rows = m.rows ∧ (appliedRotation m rot).cols = m.cols ∨
    (appliedRotation m rot).rows = m.cols ∧ (appliedRotation m rot).cols = m.rows := by
  unfold appliedRotation rotateFrame
  split_ifs <;> simp [mkMat]

theorem appliedRotation_nonempty (m : Mat) (rot : Int) (h : m.isEmpty = false) :
    (appliedRotation m rot).isEmpty = false := by
  rw [Mat.isEmpty_false] at h ⊢
  rcases appliedRotation_dims m rot with ⟨h1, h2⟩ | ⟨h1, h2⟩ <;> omega

theorem grayscaleFilter_of_some {m g : Mat} (h : grayscaleSteps m = some g) :
    grayscaleFilter m = g := by
  unfold grayscaleFilter
  rw [h]

theorem grayscaleFilter_of_none {m : Mat} (h : grayscaleSteps m = none) :
    grayscaleFilter m = m := by
  unfold grayscaleFilter
  rw [h]

theorem processFrame_of_some {input output g : Mat} (hne : input.isEmpty = false)
    (h : edgeSteps input = some g) : processFrame input output = g := by
  unfold processFrame
  simp only [hne, Bool.false_eq_true, if_false]
  rw [h]

theorem processFrame_of_none {input output : Mat} (hne : input.isEmpty = false)
    (h : edgeSteps input = none) : processFrame input output = input := by
  unfold processFrame
  simp only [hne, Bool.false_eq_true, if_false]
  rw [h]

theorem grayscaleSteps_some {m g : Mat} (h : grayscaleSteps m = some g) :
    g.rows = m.rows ∧ g.cols = m.cols ∧ g.channels = 3 := by
  unfold grayscaleSteps at h
  cases h1 : cvtColorBGR2GRAY m with
  | none => rw [h1] at h; exact absurd h (by simp)
  | some gray =>
    rw [h1] at h
    simp only [Option.some_bind] at h
    obtain ⟨e1, e2, e3⟩ := cvtColorBGR2GRAY_some h1
    obtain ⟨f1, f2, f3⟩ := cvtColorGRAY2BGR_some h
    exact ⟨by omega, by omega, f3⟩

theorem edgeSteps_some {m g : Mat} (h : edgeSteps m = some g) :
    g.rows = m.rows ∧ g.cols = m.cols ∧ g.channels = 3 := by
  unfold edgeSteps at h
  cases h1 : cvtColorBGR2GRAY m with
  | none => rw [h1] at h; exact absurd h (by simp)
  | some gray =>
    rw [h1] at h
    simp only [Option.some_bind] at h
    cases h2 : canny gray 100 200 with
    | none => rw [h2] at h; exact absurd h (by simp)
    | some edges =>
      rw [h2] at h
      simp only [Option.some_bind] at h
      obtain ⟨e1, e2, e3⟩ := cvtColorBGR2GRAY_some h1
      obtain ⟨d1, d2, d3⟩ := canny_some h2
      obtain ⟨f1, f2, f3⟩ := cvtColorGRAY2BGR_some h
      exact ⟨by omega, by omega, f3⟩

theorem grayscaleFilter_props (m : Mat) (h3 : m.channels = 3) (hne : m.isEmpty = false) :
    (grayscaleFilter m).rows = m.rows ∧ (grayscaleFilter m).cols = m.cols ∧
    (grayscaleFilter m).channels = 3 ∧ (grayscaleFilter m).isEmpty = false := by
  cases hg : grayscaleSteps m with
  | none => rw [grayscaleFilter_of_none hg]; exact ⟨rfl, rfl, h3, hne⟩
  | some g =>
    rw [grayscaleFilter_of_some hg]
    obtain ⟨e1, e2, e3⟩ := grayscaleSteps_some hg
    refine ⟨e1, e2, e3, ?_⟩
    rw [Mat.isEmpty_false] at hne ⊢
    omega

theorem processFrame_props (input output : Mat) (h3 : input.channels = 3)
    (hne : input.isEmpty = false) :
    (processFrame input output).rows = input.rows ∧
    (processFrame input output).cols = input.cols ∧
    (processFrame input output).channels = 3 ∧
    (processFrame input output).isEmpty = false := by
  cases hg : edgeSteps input with
  | none => rw [processFrame_of_none hne hg]; exact ⟨rfl, rfl, h3, hne⟩
  | some g =>
    rw [processFrame_of_some hne hg]
    obtain ⟨e1, e2, e3⟩ := edgeSteps_some hg
    refine ⟨e1, e2, e3, ?_⟩
    rw [Mat.isEmpty_false] at hne ⊢
    omega

theorem fetch_mode_raw (s : FrameStore) (h : s.rawFrame.isEmpty = false) :
    getLatestFrameForRender s 0 = s.rawFrame := by
  simp [getLatestFrameForRender, h]

theorem fetch_mode_gray (s : FrameStore) (h : s.grayscaleFrame.isEmpty = false) :
    getLatestFrameForRender s 2 = s.grayscaleFrame := by
  simp [getLatestFrameForRender, h]

theorem fetch_mode_processed (s : FrameStore) (m : Int) (h0 : m ≠ 0) (h2 : m ≠ 2)
    (h : s.processedFrame.isEmpty = false) :
    getLatestFrameForRender s m = s.processedFrame := by
  simp [getLatestFrameForRender, h0, h2, h]

theorem fetch_nonempty (s : FrameStore) (mode : Int) :
    (getLatestFrameForRender s mode).isEmpty = false := by
  unfold getLatestFrameForRender
  split_ifs <;> first | rfl | simp_all [Bool.not_eq_true]

theorem mkMat_px (R C ch : Nat) (f : Nat → Nat → Nat → Nat) (r c k : Nat)
    (hr : r < R) (hc : c < C) (hk : k < ch) :
    (mkMat R C ch f).px r c k = f r c k := by
  have hcc : r * C + c < R * C := by
    have h2 : (r + 1) * C ≤ R * C := Nat.mul_le_mul_right C hr
    rw [Nat.succ_mul] at h2
    omega
  have hlt : c * ch + k < C * ch := by
    have h4 : (c + 1) * ch ≤ C * ch := Nat.mul_le_mul_right ch hc
    rw [Nat.succ_mul] at h4
    omega
  have hidx : (r * C + c) * ch + k < R * C * ch := by
    have h3 : (r * C + c + 1) * ch ≤ R * C * ch := Nat.mul_le_mul_right ch hcc
    rw [Nat.succ_mul] at h3
    omega
  show ((((List.range (R * C * ch)).map
      (fun i => f (i / (C * ch)) ((i / ch) % C) (i % ch)))[(r * C + c) * ch + k]?).getD 0 : Nat)
      = f r c k
  rw [List.getElem?_map, List.getElem?_range hidx]
  simp only [Option.map_some', Option.getD_some]
  have e1 : ((r * C + c) * ch + k) / (C * ch) = r := by
    rw [show (r * C + c) * ch + k = c * ch + k + C * ch * r by ring]
    rw [Nat.add_mul_div_left _ _ (by omega : 0 < C * ch)]
    rw [Nat.div_eq_of_lt hlt]
    omega
  have e2 : ((r * C + c) * ch + k) / ch = r * C + c := by
    rw [show (r * C + c) * ch + k = k + ch * (r * C + c) by ring]
    rw [Nat.add_mul_div_left _ _ (by omega : 0 < ch)]
    rw [Nat.div_eq_of_lt hk]
    omega
  have e3 : (r * C + c) % C = c := by
    rw [show r * C + c = c + r * C by ring]
    rw [Nat.add_mul_mod_self_right]
    exact Nat.mod_eq_of_lt hc
  have e4 : ((r * C + c) * ch + k) % ch = k := by
    rw [show (r * C + c) * ch + k = k + (r * C + c) * ch by ring]
    rw [Nat.add_mul_mod_self_right]
    exact Nat.mod_eq_of_lt hk
  rw [e1, e2, e3, e4]

theorem fallbackFrame_px (r c k : Nat) (hr : r < 480) (hc : c < 640) (hk : k < 3) :
    fallbackFrame.px r c k = if k = 0 then 255 else 0 :=
  mkMat_px 480 640 3 (fun _ _ k => if k = 0 then 255 else 0) r c k hr hc hk

theorem appliedRotation_zero (m : Mat) : appliedRotation m 0 = m := by
  simp [appliedRotation]

theorem appliedRotation_90 (m : Mat) :
    (appliedRotation m 90).rows = m.cols ∧ (appliedRotation m 90).cols = m.rows := by
  norm_num [appliedRotation, rotateFrame, mkMat]

theorem appliedRotation_180 (m : Mat) :
    (appliedRotation m 180).rows = m.rows ∧ (appliedRotation m 180).cols = m.cols := by
  norm_num [appliedRotation, rotateFrame, mkMat]

theorem appliedRotation_270 (m : Mat) :
    (appliedRotation m 270).rows = m.cols ∧ (appliedRotation m 270).cols = m.rows := by
  norm_num [appliedRotation, rotateFrame, mkMat]

theorem processFrameInternal_some {data : List Nat} {W H : Nat} {bgr : Mat}
    (s : FrameStore) (rot : Int) (h : convertFrame data W H = some bgr) :
    processFrameInternal s (some data) W H rot =
      { rawFrame := appliedRotation bgr rot
        grayscaleFrame := grayscaleFilter (appliedRotation bgr rot)
        processedFrame := processFrame (appliedRotation bgr rot) s.processedFrame } := by
  unfold processFrameInternal
  dsimp only
  rw [h]

/-- Claim C1: for every published frame (a delivered buffer whose NV21
conversion succeeds) and each of the three variants, a publish
(`processFrameInternal`) followed immediately by a fetch
(`getLatestFrameForRender` in mode 0, 2 or 1) returns exactly the buffer
that was published for that variant: the rotated raw conversion, its
grayscale variant and its edge variant respectively. Deep copies are value
copies in this embedding, so equality is pixel-for-pixel equality. -/
theorem c1_publish_fetch_roundtrip (s : FrameStore) (data : List Nat)
    (W H : Nat) (rot : Int) (bgr : Mat)
    (hbgr : convertFrame data W H = some bgr) :
    (processFrameInternal s (some data) W H rot).rawFrame = appliedRotation bgr rot ∧
    (processFrameInternal s (some data) W H rot).grayscaleFrame =
      grayscaleFilter (appliedRotation bgr rot) ∧
    (processFrameInternal s (some data) W H rot).processedFrame =
      processFrame (appliedRotation bgr rot) s.processedFrame ∧
    getLatestFrameForRender (processFrameInternal s (some data) W H rot) 0 =
      (processFrameInternal s (some data) W H rot).rawFrame ∧
    getLatestFrameForRender (processFrameInternal s (some data) W H rot) 2 =
      (processFrameInternal s (some data) W H rot).grayscaleFrame ∧
    getLatestFrameForRender (processFrameInternal s (some data) W H rot) 1 =
      (processFrameInternal s (some data) W H rot).processedFrame := by
  obtain ⟨hch, hne⟩ := convertFrame_some hbgr
  have hrch : (appliedRotation bgr rot).channels = 3 := by
    rw [appliedRotation_channels]; exact hch
  have hrne := appliedRotation_nonempty bgr rot hne
  obtain ⟨g1, g2, g3, g4⟩ := grayscaleFilter_props (appliedRotation bgr rot) hrch hrne
  obtain ⟨p1, p2, p3, p4⟩ :=
    processFrame_props (appliedRotation bgr rot) s.processedFrame hrch hrne
  rw [processFrameInternal_some s rot hbgr]
  exact ⟨rfl, rfl, rfl, fetch_mode_raw _ hrne, fetch_mode_gray _ g4,
    fetch_mode_processed _ 1 (by decide) (by decide) p4⟩

theorem c1_publish_fetch_roundtrip_witness :
    (processFrameInternal initialStore (some sampleNV21) 2 2 0).rawFrame =
      appliedRotation sampleBgr 0 ∧
    (processFrameInternal initialStore (some sampleNV21) 2 2 0).grayscaleFrame =
      grayscaleFilter (appliedRotation sampleBgr 0) ∧
    (processFrameInternal initialStore (some sampleNV21) 2 2 0).processedFrame =
      processFrame (appliedRotation sampleBgr 0) initialStore.processedFrame ∧
    getLatestFrameForRender (processFrameInternal initialStore (some sampleNV21) 2 2 0) 0 =
      (processFrameInternal initialStore (some sampleNV21) 2 2 0).rawFrame ∧
    getLatestFrameForRender (processFrameInternal initialStore (some sampleNV21) 2 2 0) 2 =
      (processFrameInternal initialStore (some sampleNV21) 2 2 0).grayscaleFrame ∧
    getLatestFrameForRender (processFrameInternal initialStore (some sampleNV21) 2 2 0) 1 =
      (processFrameInternal initialStore (some sampleNV21) 2 2 0).processedFrame :=
  c1_publish_fetch_roundtrip initialStore sampleNV21 2 2 0 sampleBgr (by decide)

/-- Claim C2 (counterexample): the claim says the store lock is held only
for the duration of buffer copies (three copies in during publish) and
never across a filter computation; but in `processFrameInternal` the
`lock_guard` scope opened at line 211 contains the grayscale conversions
(lines 219-220) and the edge filter call (line 229), so a filter
computation occurs while the lock is held, and only one of the three
stored buffers is produced by a plain copy. -/
theorem c2_lock_only_copies_counterexample :
    CoreOp.filterComputation ∈ heldOps publishOps false ∧
    (heldOps publishOps false).count CoreOp.bufferCopy = 1 := by decide

/-- Claim C2 (amended): during fetch the lock is held for exactly one
buffer copy out; the lock is never held across a GPU call; but during
publish it is held across one buffer copy plus the three filter
computations that produce the grayscale and edge variants in place. -/
theorem c2_lock_discipline_amended :
    heldOps renderPassOps false = [CoreOp.bufferCopy] ∧
    CoreOp.gpuCall ∉ heldOps renderPassOps false ∧
    CoreOp.gpuCall ∉ heldOps publishOps false ∧
    heldOps publishOps false =
      [CoreOp.bufferCopy, CoreOp.filterComputation, CoreOp.filterComputation,
        CoreOp.filterComputation] := by decide

/-- Claim C3: for every valid raw capture buffer of declared size `W x H`
(`validNV21`: positive even dimensions, byte count of the packed NV21
layout) and rotation in {0, 90, 180, 270}, the conversion-plus-rotation
pipeline stores a 3-channel raw buffer of size `W x H` for rotation 0 or
180 and of swapped size `H x W` for rotation 90 or 270. -/
theorem c3_conversion_dimensions (s : FrameStore) (data : List Nat) (W H : Nat)
    (rot : Int) (hv : validNV21 data W H)
    (hrot : rot = 0 ∨ rot = 90 ∨ rot = 180 ∨ rot = 270) :
    (processFrameInternal s (some data) W H rot).rawFrame.channels = 3 ∧
    ((rot = 0 ∨ rot = 180) →
      (processFrameInternal s (some data) W H rot).rawFrame.rows = H ∧
      (processFrameInternal s (some data) W H rot).rawFrame.cols = W) ∧
    ((rot = 90 ∨ rot = 270) →
      (processFrameInternal s (some data) W H rot).rawFrame.rows = W ∧
      (processFrameInternal s (some data) W H rot).rawFrame.cols = H) := by
  obtain ⟨bgr, hbgr, hrows, hcols, hch⟩ := convertFrame_valid data W H hv
  rw [processFrameInternal_some s rot hbgr]
  refine ⟨by rw [appliedRotation_channels]; exact hch, ?_, ?_⟩
  · rintro (rfl | rfl)
    · rw [appliedRotation_zero]; exact ⟨hrows, hcols⟩
    · obtain ⟨d1, d2⟩ := appliedRotation_180 bgr
      exact ⟨by rw [d1, hrows], by rw [d2, hcols]⟩
  · rintro (rfl | rfl)
    · obtain ⟨d1, d2⟩ := appliedRotation_90 bgr
      exact ⟨by rw [d1, hcols], by rw [d2, hrows]⟩
    · obtain ⟨d1, d2⟩ := appliedRotation_270 bgr
      exact ⟨by rw [d1, hcols], by rw [d2, hrows]⟩

theorem c3_conversion_dimensions_witness :
    (processFrameInternal initialStore (some sampleNV21) 2 2 90).rawFrame.channels = 3 ∧
    (processFrameInternal initialStore (some sampleNV21) 2 2 90).rawFrame.rows = 2 ∧
    (processFrameInternal initialStore (some sampleNV21) 2 2 90).rawFrame.cols = 2 :=
  have h := c3_conversion_dimensions initialStore sampleNV21 2 2 90 (by decide)
    (Or.inr (Or.inl rfl))
  ⟨h.1, (h.2.2 (Or.inl rfl)).1, (h.2.2 (Or.inl rfl)).2⟩

/-- Claim C4: the fetch operation maps render mode 0 (RawCamera) to the
raw variant, 2 (Grayscale) to the grayscale variant, and the remaining
defined modes 1 (EdgeDetection), 3 (Default), 4 (Inset) and 5 (BorderFix)
to the edge-filtered variant, returning that variant's stored buffer. -/
theorem c4_mode_variant_mapping (s : FrameStore) :
    (s.rawFrame.isEmpty = false → getLatestFrameForRender s 0 = s.rawFrame) ∧
    (s.grayscaleFrame.isEmpty = false → getLatestFrameForRender s 2 = s.grayscaleFrame) ∧
    (s.processedFrame.isEmpty = false →
      getLatestFrameForRender s 1 = s.processedFrame ∧
      getLatestFrameForRender s 3 = s.processedFrame ∧
      getLatestFrameForRender s 4 = s.processedFrame ∧
      getLatestFrameForRender s 5 = s.processedFrame) := by
  refine ⟨fetch_mode_raw s, fetch_mode_gray s, fun h => ⟨?_, ?_, ?_, ?_⟩⟩ <;>
    exact fetch_mode_processed s _ (by decide) (by decide) h

theorem c4_mode_variant_mapping_witness :
    getLatestFrameForRender sampleStore 0 = sampleStore.rawFrame ∧
    getLatestFrameForRender sampleStore 2 = sampleStore.grayscaleFrame ∧
    getLatestFrameForRender sampleStore 1 = sampleStore.processedFrame ∧
    getLatestFrameForRender sampleStore 3 = sampleStore.processedFrame ∧
    getLatestFrameForRender sampleStore 4 = sampleStore.processedFrame ∧
    getLatestFrameForRender sampleStore 5 = sampleStore.processedFrame :=
  have h := c4_mode_variant_mapping sampleStore
  ⟨h.1 (by decide), h.2.1 (by decide), (h.2.2 (by decide)).1, (h.2.2 (by decide)).2.1,
    (h.2.2 (by decide)).2.2.1, (h.2.2 (by decide)).2.2.2⟩

/-- Claim C5: when a variant's stored buffer is absent — on the fresh
store, or after `nativeCleanup` has released all entries — fetch returns
the fallback buffer for every mode, never stale data; the fallback buffer
has the fixed dimensions 480 x 640 x 3 and is solid blue, BGR (255,0,0). -/
theorem c5_fallback_buffer :
    (∀ mode : Int, getLatestFrameForRender initialStore mode = fallbackFrame) ∧
    (∀ s : FrameStore, ∀ mode : Int,
      getLatestFrameForRender (nativeCleanup s) mode = fallbackFrame) ∧
    fallbackFrame.rows = 480 ∧ fallbackFrame.cols = 640 ∧ fallbackFrame.channels = 3 ∧
    (∀ r c : Nat, r < 480 → c < 640 →
      fallbackFrame.px r c 0 = 255 ∧ fallbackFrame.px r c 1 = 0 ∧
      fallbackFrame.px r c 2 = 0) := by
  have hinit : ∀ mode : Int, getLatestFrameForRender initialStore mode = fallbackFrame := by
    intro mode
    unfold getLatestFrameForRender
    split_ifs <;> first | rfl | (exact absurd rfl (by assumption))
  refine ⟨hinit, fun s mode => hinit mode, rfl, rfl, rfl, fun r c hr hc => ?_⟩
  refine ⟨?_, ?_, ?_⟩
  · rw [fallbackFrame_px r c 0 hr hc (by decide)]
    rfl
  · rw [fallbackFrame_px r c 1 hr hc (by decide)]
    rfl
  · rw [fallbackFrame_px r c 2 hr hc (by decide)]
    rfl

theorem c5_fallback_buffer_witness :
    getLatestFrameForRender initialStore 0 = fallbackFrame ∧
    getLatestFrameForRender (nativeCleanup sampleStore) 1 = fallbackFrame ∧
    fallbackFrame.px 0 0 0 = 255 ∧ fallbackFrame.px 0 0 1 = 0 :=
  ⟨c5_fallback_buffer.1 0, c5_fallback_buffer.2.1 sampleStore 1,
    (c5_fallback_buffer.2.2.2.2.2 0 0 (by decide) (by decide)).1,
    (c5_fallback_buffer.2.2.2.2.2 0 0 (by decide) (by decide)).2.1⟩

/-- Claim C6: when the grayscale filter pipeline fails internally (the
`catch` in `processFrameInternal`), its result is a copy of its input; and
when the edge filter pipeline fails internally (the `catch` in
`image_processor.cpp::processFrame`, reached for a non-empty input that
passed the initial guard), its result is a copy of its input. -/
theorem c6_filter_failure_returns_input (input output : Mat) :
    (grayscaleSteps input = none → grayscaleFilter input = input) ∧
    (input.isEmpty = false → edgeSteps input = none →
      processFrame input output = input) :=
  ⟨fun h => grayscaleFilter_of_none h, fun hne h => processFrame_of_none hne h⟩

theorem c6_filter_failure_returns_input_witness :
    grayscaleFilter sampleBadInput = sampleBadInput ∧
    processFrame sampleBadInput Mat.emptyMat = sampleBadInput :=
  ⟨(c6_filter_failure_returns_input sampleBadInput Mat.emptyMat).1 (by decide),
    (c6_filter_failure_returns_input sampleBadInput Mat.emptyMat).2 (by decide) (by decide)⟩

/-- Claim C7: the five orientation tables are fixed lookup tables over the
same quad corners, realizing per corner (clockwise from bottom-left:
BL, TL, TR, BR): Normal assigns each corner its own texture coordinate
(the identity (pos+1)/2 mapping); FlippedVertical flips the vertical
texcoord; Rotated90 cycles the texcoord corners one step clockwise;
Rotated180 flips both axes; Rotated270 cycles one step counter-clockwise;
and `getCurrentVertices` selects the table for each orientation value. -/
theorem c7_orientation_tables :
    getCurrentVertices 0 = verticesNormal ∧
    getCurrentVertices 1 = verticesFlippedV ∧
    getCurrentVertices 2 = verticesRotated90 ∧
    getCurrentVertices 3 = verticesRotated180 ∧
    getCurrentVertices 4 = verticesRotated270 ∧
    cwPositions verticesNormal = [(-1, -1), (-1, 1), (1, 1), (1, -1)] ∧
    cwPositions verticesFlippedV = cwPositions verticesNormal ∧
    cwPositions verticesRotated90 = cwPositions verticesNormal ∧
    cwPositions verticesRotated180 = cwPositions verticesNormal ∧
    cwPositions verticesRotated270 = cwPositions verticesNormal ∧
    cwTexcoords verticesNormal =
      (cwPositions verticesNormal).map (fun p => ((p.1 + 1) / 2, (p.2 + 1) / 2)) ∧
    cwTexcoords verticesFlippedV =
      (cwTexcoords verticesNormal).map (fun p => (p.1, 1 - p.2)) ∧
    cwTexcoords verticesRotated90 = cycleCW (cwTexcoords verticesNormal) ∧
    cwTexcoords verticesRotated180 =
      (cwTexcoords verticesNormal).map (fun p => (1 - p.1, 1 - p.2)) ∧
    cwTexcoords verticesRotated270 = cycleCCW (cwTexcoords verticesNormal) := by
  decide

/-- Claim C8: after every publish that reaches the store-update step (the
conversion succeeded), all three stored variants are non-empty 3-channel
buffers with identical dimensions; the proofs of the filter-property
lemmas cover both the successful-pipeline branch and the fallback branch
that stores a copy of the rotated input. -/
theorem c8_store_invariant (s : FrameStore) (data : List Nat) (W H : Nat)
    (rot : Int) (bgr : Mat) (hbgr : convertFrame data W H = some bgr) :
    ((processFrameInternal s (some data) W H rot).rawFrame.isEmpty = false ∧
      (processFrameInternal s (some data) W H rot).rawFrame.channels = 3) ∧
    ((processFrameInternal s (some data) W H rot).grayscaleFrame.isEmpty = false ∧
      (processFrameInternal s (some data) W H rot).grayscaleFrame.channels = 3) ∧
    ((processFrameInternal s (some data) W H rot).processedFrame.isEmpty = false ∧
      (processFrameInternal s (some data) W H rot).processedFrame.channels = 3) ∧
    (processFrameInternal s (some data) W H rot).grayscaleFrame.rows =
      (processFrameInternal s (some data) W H rot).rawFrame.rows ∧
    (processFrameInternal s (some data) W H rot).grayscaleFrame.cols =
      (processFrameInternal s (some data) W H rot).rawFrame.cols ∧
    (processFrameInternal s (some data) W H rot).processedFrame.rows =
      (processFrameInternal s (some data) W H rot).rawFrame.rows ∧
    (processFrameInternal s (some data) W H rot).processedFrame.cols =
      (processFrameInternal s (some data) W H rot).rawFrame.cols := by
  obtain ⟨hch, hne⟩ := convertFrame_some hbgr
  have hrch : (appliedRotation bgr rot).channels = 3 := by
    rw [appliedRotation_channels]; exact hch
  have hrne := appliedRotation_nonempty bgr rot hne
  obtain ⟨g1, g2, g3, g4⟩ := grayscaleFilter_props (appliedRotation bgr rot) hrch hrne
  obtain ⟨p1, p2, p3, p4⟩ :=
    processFrame_props (appliedRotation bgr rot) s.processedFrame hrch hrne
  rw [processFrameInternal_some s rot hbgr]
  exact ⟨⟨hrne, hrch⟩, ⟨g4, g3⟩, ⟨p4, p3⟩, g1, g2, p1, p2⟩

theorem c8_store_invariant_witness :
    ((processFrameInternal initialStore (some sampleNV21) 2 2 180).rawFrame.isEmpty = false ∧
      (processFrameInternal initialStore (some sampleNV21) 2 2 180).rawFrame.channels = 3) ∧
    ((processFrameInternal initialStore (some sampleNV21) 2 2 180).grayscaleFrame.isEmpty = false ∧
      (processFrameInternal initialStore (some sampleNV21) 2 2 180).grayscaleFrame.channels = 3) ∧
    ((processFrameInternal initialStore (some sampleNV21) 2 2 180).processedFrame.isEmpty = false ∧
      (processFrameInternal initialStore (some sampleNV21) 2 2 180).processedFrame.channels = 3) ∧
    (processFrameInternal initialStore (some sampleNV21) 2 2 180).grayscaleFrame.rows =
      (processFrameInternal initialStore (some sampleNV21) 2 2 180).rawFrame.rows ∧
    (processFrameInternal initialStore (some sampleNV21) 2 2 180).grayscaleFrame.cols =
      (processFrameInternal initialStore (some sampleNV21) 2 2 180).rawFrame.cols ∧
    (processFrameInternal initialStore (some sampleNV21) 2 2 180).processedFrame.rows =
      (processFrameInternal initialStore (some sampleNV21) 2 2 180).rawFrame.rows ∧
    (processFrameInternal initialStore (some sampleNV21) 2 2 180).processedFrame.cols =
      (processFrameInternal initialStore (some sampleNV21) 2 2 180).rawFrame.cols :=
  c8_store_invariant initialStore sampleNV21 2 2 180 sampleBgr (by decide)

/-- Claim C9: for every frame data, width and height, the legacy entry
point `nativeProcessFrame` is observably equivalent to
`nativeProcessFrameWithRotation` with rotation 0: both delegate to
`processFrameInternal` with rotation 0, leaving the store in the same
state. -/
theorem c9_legacy_entry_equivalent (s : FrameStore) (frameData : Option (List Nat))
    (width height : Nat) :
    nativeProcessFrame s frameData width height =
      nativeProcessFrameWithRotation s frameData width height 0 := rfl

/-- Claim C10: for every integer passed to `setRenderModeNative`, a
subsequent fetch succeeds: the result is never an empty buffer, and every
mode other than 0 (RAW_CAMERA) and 2 (GRAYSCALE) selects the
edge/processed variant through the switch default, with the fallback
buffer returned when that variant is empty. -/
theorem c10_any_mode_fetch_safe (s : FrameStore) (mode : Int) :
    (getLatestFrameForRender s (setRenderModeNative mode)).isEmpty = false ∧
    (mode ≠ 0 → mode ≠ 2 →
      getLatestFrameForRender s (setRenderModeNative mode) =
        if s.processedFrame.isEmpty then fallbackFrame else s.processedFrame) := by
  constructor
  · exact fetch_nonempty s mode
  · intro h0 h2
    unfold getLatestFrameForRender setRenderModeNative
    rw [if_neg h0, if_neg h2]

theorem c10_any_mode_fetch_safe_witness :
    (getLatestFrameForRender initialStore (setRenderModeNative 7)).isEmpty = false ∧
    getLatestFrameForRender initialStore (setRenderModeNative 7) =
      (if initialStore.processedFrame.isEmpty then fallbackFrame
        else initialStore.processedFrame) :=
  ⟨(c10_any_mode_fetch_safe initialStore 7).1,
    (c10_any_mode_fetch_safe initialStore 7).2 (by decide) (by decide)⟩
